import Mathlib

/-!
Verification development for the course-catalog service (FastAPI + SQLAlchemy).

Shallow embedding of `src/db/queries.py`, `src/models.py`, `src/db/schema.py`
and `src/exceptions.py`:

* Python strings are Lean `String`s; `str.replace(" ", "")` with the
  single-character pattern `" "` removes every space character, embedded as a
  `List.filter` over the string's characters (`pyNorm`).
* Python exceptions become the inductive `PyErr`; a `try/except` chain becomes
  a `match` on an `Except PyErr` value, with the handlers tested in source
  order (`SQLAlchemyError` before `Exception`).
* The SQLAlchemy `AsyncSession` becomes an explicit state `DB` split into
  `committed` rows and `pending` (added-but-not-committed) rows; `db.add`
  appends to `pending`, `commit` merges `pending` into `committed` after
  checking the schema's primary-key / unique constraints, `rollback` discards
  `pending`.  Queries see `committed ++ pending` (session autoflush).
* `uuid.uuid4()` randomness is threaded as an oracle: a supply of digit
  strings (`rng : List String`), one consumed per `generate_id` call site.
* SQLAlchemy's declarative constructor raises `TypeError` for a keyword
  argument that is not a mapped attribute of the model; `makeCourse` embeds
  this check against the attributes `Course` declares in `schema.py`.
* pydantic attribute access on a missing field raises `AttributeError`;
  `getattrSessionRequest` embeds the fields `SessionRequest` declares in
  `models.py`.
-/

deriving instance DecidableEq for Except

/-- Embedded Python exception taxonomy (from `src/exceptions.py` plus the
built-in `TypeError` / `AttributeError` / `NameError` and SQLAlchemy's
`IntegrityError`). -/
inductive PyErr where
  | entityNotFound (entityType : String) (name : String)
  | courseAlreadyExists (course_id : String)
  | courseNotFound (course_id : String)
  | databaseError (msg : String)
  | requestFailure (msg : String)
  | integrityError (msg : String)
  | typeError (msg : String)
  | attributeError (objType : String) (attr : String)
  | nameError (varName : String)
deriving DecidableEq

/-- Which embedded exceptions are instances of `sqlalchemy.exc.SQLAlchemyError`
(only the constraint-violation error raised by `commit` is). -/
def isSQLAlchemyError : PyErr → Bool
  | .integrityError _ => true
  | _ => false

/-- Which embedded exceptions are instances of `EntityNotFoundError`. -/
def isEntityNotFound : PyErr → Bool
  | .entityNotFound _ _ => true
  | _ => false

/-- Python `str(e)` for each embedded exception, following each class's
`__str__` / message in `src/exceptions.py`. -/
def pyStr : PyErr → String
  | .entityNotFound t n => t ++ " with name '" ++ n ++ "' not found."
  | .courseAlreadyExists cid => "Course already exists with this ID: " ++ cid
  | .courseNotFound cid => "Course doesn't exists with this ID: " ++ cid
  | .databaseError m => m
  | .requestFailure m => m
  | .integrityError m => m
  | .typeError m => m
  | .attributeError o a => "'" ++ o ++ "' object has no attribute '" ++ a ++ "'"
  | .nameError v => "name '" ++ v ++ "' is not defined"

/-- Python `s.replace(" ", "")`: the pattern is the single character `' '`, so
the call deletes every space character of `s`. -/
def pyNorm (s : String) : String :=
  ⟨s.data.filter (fun c => c != ' ')⟩

/-- Python `s.lower()`, character-wise (ASCII fragment). -/
def pyLower (s : String) : String :=
  ⟨s.data.map Char.toLower⟩

/-- Python word character (`\w` in the regex `\W+|\s+` of `generate_id`,
ASCII fragment): letters, digits and underscore. -/
def isWordChar (c : Char) : Bool :=
  c.isAlphanum || c == '_'

/-- Python `s.strip()`: drop leading and trailing whitespace. -/
def pyStrip (l : List Char) : List Char :=
  ((l.dropWhile Char.isWhitespace).reverse.dropWhile Char.isWhitespace).reverse

/-- Accumulator pass splitting a character list into its maximal runs of word
characters.  `re.split(r"\W+|\s+", s)` returns these runs interleaved with
(possibly empty) boundary pieces, and `generate_id` keeps only the non-empty
pieces (`if part`), which are exactly these runs. -/
def runsAux : List Char → List Char → List (List Char)
  | [], acc => if acc.isEmpty then [] else [acc.reverse]
  | c :: rest, acc =>
    if isWordChar c then runsAux rest (c :: acc)
    else if acc.isEmpty then runsAux rest []
    else acc.reverse :: runsAux rest []

/-- Maximal runs of word characters of a character list. -/
def wordRuns (l : List Char) : List (List Char) :=
  runsAux l []

/-- Characters of the initials string of `generate_id`
(`[part[0].upper() for part in re.split(r"\W+|\s+", name.strip()) if part]`):
the upper-cased head of each non-empty word run. -/
def initialsList (l : List Char) : List Char :=
  ((wordRuns l).filterMap List.head?).map Char.toUpper

/-- Initials string of `generate_id` for a name (`queries.py:78-80`). -/
def initialsStr (name : String) : String :=
  ⟨initialsList (pyStrip name.data)⟩

/-- Embeds `generate_id` (`queries.py:76-82`).  `rnd` is the oracle value of
`str(uuid.uuid4().int)[:4]` (four decimal digits). -/
def generate_id (name : String) (rnd : String) : String :=
  initialsStr name ++ rnd

/-- Course key derivation of the Course Writer
(`queries.py:190`, `course_id = f"{pathway.id}-{professor.id}-{topic.id}"`). -/
def course_key (pathway_id professor_id topic_id : String) : String :=
  pathway_id ++ "-" ++ professor_id ++ "-" ++ topic_id

/-- Course key derivation of the Session Writer
(`queries.py:254`, `course_id = f"{pathway.id}--{professor.id}-{topic.id}"`):
note the doubled dash after the pathway id. -/
def session_course_key (pathway_id professor_id topic_id : String) : String :=
  pathway_id ++ "--" ++ professor_id ++ "-" ++ topic_id

/-- Session key derivation (`queries.py:213` and `queries.py:268`). -/
def session_key (course_id : String) (session_number : Int) : String :=
  course_id ++ "-" ++ toString session_number

/-- Media key derivation (`queries.py:226` and `queries.py:279`). -/
def media_key (session_id media_type : String) : String :=
  session_id ++ "-" ++ media_type

/-- Normalization `insert_course` applies to the professor name before
storing it (`queries.py:182`, `request.professor_name.replace(" ", "").lower()`). -/
def professorWriteName (n : String) : String :=
  pyLower (pyNorm n)

/-- Normalization `insert_session` (`queries.py:250`) and
`stream_courses_by_filter` (`queries.py:92`) apply to the professor name
before looking it up (`.replace(" ", "")`, without `.lower()`). -/
def professorReadName (n : String) : String :=
  pyNorm n

/-- Row of table `pathway` (`schema.py:18-24`): columns `id`, `name`. -/
structure PathwayRow where
  id : String
  name : String
deriving DecidableEq

/-- Row of table `professors` (`schema.py:27-38`): columns `id`, `name`,
`email`, `pathway_id`. -/
structure ProfessorRow where
  id : String
  name : String
  email : String
  pathway_id : String
deriving DecidableEq

/-- Row of table `topics` (`schema.py:41-47`): columns `id`, `name`. -/
structure TopicRow where
  id : String
  name : String
deriving DecidableEq

/-- Row of table `courses` (`schema.py:50-65`): columns `id`, `title`,
`description`, `professor_id`, `topic_id`.  There is no `pathway_id`
column. -/
structure CourseRow where
  id : String
  title : String
  description : String
  professor_id : String
  topic_id : String
deriving DecidableEq

/-- Row of table `sessions` (`schema.py:68-81`): columns `id`, `course_id`,
`session_number`, `title`, `description` (the `date` default is not
modelled). -/
structure SessionRow where
  id : String
  course_id : String
  session_number : Int
  title : String
  description : String
deriving DecidableEq

/-- Row of table `media` (`schema.py:84-95`): columns `id`, `session_id`,
`type`, `url` (the `upload_date` default is not modelled). -/
structure MediaRow where
  id : String
  session_id : String
  type : String
  url : String
deriving DecidableEq

/-- Rows of every table, in insertion order. -/
structure Tables where
  pathways : List PathwayRow
  professors : List ProfessorRow
  topics : List TopicRow
  courses : List CourseRow
  sessions : List SessionRow
  media : List MediaRow
deriving DecidableEq

/-- Empty set of tables. -/
def emptyTables : Tables :=
  ⟨[], [], [], [], [], []⟩

/-- Table-wise append. -/
def mergeTables (a b : Tables) : Tables :=
  ⟨a.pathways ++ b.pathways, a.professors ++ b.professors, a.topics ++ b.topics,
   a.courses ++ b.courses, a.sessions ++ b.sessions, a.media ++ b.media⟩

/-- Embedded SQLAlchemy `AsyncSession` transaction state: `committed` rows are
durable, `pending` rows were `add`ed since the last commit. -/
structure DB where
  committed : Tables
  pending : Tables
deriving DecidableEq

/-- Empty database. -/
def emptyDB : DB :=
  ⟨emptyTables, emptyTables⟩

/-- What queries on the session observe (committed rows plus autoflushed
pending rows). -/
def viewTables (db : DB) : Tables :=
  mergeTables db.committed db.pending

/-- List has no duplicate elements (executable). -/
def noDups : List String → Bool
  | [] => true
  | x :: xs => !(xs.contains x) && noDups xs

/-- Schema constraints enforced by the store at commit: primary-key
uniqueness for every table, plus `unique=True` on `pathway.name`,
`topics.name` and `professors.email` (`schema.py`). -/
def constraintsOK (t : Tables) : Bool :=
  noDups (t.pathways.map (fun r => r.id)) &&
  noDups (t.professors.map (fun r => r.id)) &&
  noDups (t.topics.map (fun r => r.id)) &&
  noDups (t.courses.map (fun r => r.id)) &&
  noDups (t.sessions.map (fun r => r.id)) &&
  noDups (t.media.map (fun r => r.id)) &&
  noDups (t.pathways.map (fun r => r.name)) &&
  noDups (t.topics.map (fun r => r.name)) &&
  noDups (t.professors.map (fun r => r.email))

/-- Embeds `await db.commit()`: flush pending rows; on a constraint violation
the store raises an `IntegrityError` (a `SQLAlchemyError`) and nothing
becomes durable. -/
def commitDB (db : DB) : Except PyErr DB :=
  let merged := mergeTables db.committed db.pending
  if constraintsOK merged then .ok ⟨merged, emptyTables⟩
  else .error (.integrityError "constraint violation")

/-- Embeds `await db.rollback()`: pending rows are discarded, committed rows
are untouched. -/
def rollbackDB (db : DB) : DB :=
  ⟨db.committed, emptyTables⟩

/-- Mutable state threaded through the writers: the session plus the random
oracle (`rng` holds the upcoming values of `str(uuid.uuid4().int)[:4]`). -/
structure St where
  db : DB
  rng : List String
deriving DecidableEq

/-- Draw the next random 4-digit string from the oracle. -/
def nextRnd (rng : List String) : String × List String :=
  (rng.headD "0000", rng.tail)

/-- Pydantic `Media` payload (`models.py:7-9`). -/
structure MediaPayload where
  type : String
  url : String
deriving DecidableEq

/-- Pydantic `Session` payload (`models.py:13-17`). -/
structure SessionPayload where
  session_number : Int
  title : String
  description : String
  media : List MediaPayload
deriving DecidableEq

/-- Pydantic `CourseRequest` (`models.py:20-27`). -/
structure CourseRequest where
  professor_name : String
  professor_email : String
  pathway_name : String
  topic_name : String
  course_title : String
  course_description : String
  sessions : List SessionPayload
deriving DecidableEq

/-- Pydantic `SessionRequest` (`models.py:42-45`): it has exactly the fields
`professor_name`, `topic_name`, `sessions` — there is no `pathway_name`
field. -/
structure SessionRequest where
  professor_name : String
  topic_name : String
  sessions : List SessionPayload
deriving DecidableEq

/-- Pydantic attribute access on a `SessionRequest` for its string-typed
fields: any attribute outside the model's declared fields raises
`AttributeError` (this is how `request.pathway_name` behaves in
`insert_session`, `queries.py:247`). -/
def getattrSessionRequest (req : SessionRequest) (attr : String) : Except PyErr String :=
  if attr = "professor_name" then .ok req.professor_name
  else if attr = "topic_name" then .ok req.topic_name
  else .error (.attributeError "SessionRequest" attr)

/-- Handler chain of `_fetch_entity` (`queries.py:68-73`): `except
SQLAlchemyError` converts to `DatabaseError`, then `except Exception`
converts everything else — including the `EntityNotFoundError` raised inside
the same `try` block — to `RequestFailure`. -/
def fetchWrap (modelName : String) {α : Type} (r : Except PyErr α) : Except PyErr α :=
  match r with
  | .ok a => .ok a
  | .error e =>
    if isSQLAlchemyError e then .error (.databaseError ("Error fetching " ++ modelName))
    else .error (.requestFailure ("Failed to fetch " ++ modelName))

/-- Body of `_fetch_entity` for `Pathway` (`queries.py:62-67`): select by
`name`, take the first row, raise `EntityNotFoundError` when there is none. -/
def fetchPathwayFirst (db : DB) (name : String) : Except PyErr PathwayRow :=
  match (viewTables db).pathways.find? (fun r => r.name = name) with
  | some e => .ok e
  | none => .error (.entityNotFound "Pathway" name)

/-- Embeds `_fetch_entity(db, Pathway, name)` (`queries.py:58-73`). -/
def fetchPathway (db : DB) (name : String) : Except PyErr PathwayRow :=
  fetchWrap "Pathway" (fetchPathwayFirst db name)

/-- Body of `_fetch_entity` for `Professor`. -/
def fetchProfessorFirst (db : DB) (name : String) : Except PyErr ProfessorRow :=
  match (viewTables db).professors.find? (fun r => r.name = name) with
  | some e => .ok e
  | none => .error (.entityNotFound "Professor" name)

/-- Embeds `_fetch_entity(db, Professor, name)` (`queries.py:58-73`). -/
def fetchProfessor (db : DB) (name : String) : Except PyErr ProfessorRow :=
  fetchWrap "Professor" (fetchProfessorFirst db name)

/-- Body of `_fetch_entity` for `Topic`. -/
def fetchTopicFirst (db : DB) (name : String) : Except PyErr TopicRow :=
  match (viewTables db).topics.find? (fun r => r.name = name) with
  | some e => .ok e
  | none => .error (.entityNotFound "Topic" name)

/-- Embeds `_fetch_entity(db, Topic, name)` (`queries.py:58-73`). -/
def fetchTopic (db : DB) (name : String) : Except PyErr TopicRow :=
  fetchWrap "Topic" (fetchTopicFirst db name)

/-- Embeds `_insert_entity(db, Pathway, name)` (`queries.py:38-56`):
`generate_id`, construct the row, `db.add`, `db.commit`; on failure roll back
and convert the error (`SQLAlchemyError` to `DatabaseError`, anything else to
`RequestFailure`). -/
def insertEntityPathway (st : St) (name : String) : Except PyErr PathwayRow × St :=
  let (rnd, rng') := nextRnd st.rng
  let id_value := generate_id name rnd
  let entity : PathwayRow := ⟨id_value, name⟩
  let db1 : DB := ⟨st.db.committed, { st.db.pending with pathways := st.db.pending.pathways ++ [entity] }⟩
  match commitDB db1 with
  | .ok db2 => (.ok entity, ⟨db2, rng'⟩)
  | .error e =>
    let db2 := rollbackDB db1
    if isSQLAlchemyError e then (.error (.databaseError "Error inserting Pathway"), ⟨db2, rng'⟩)
    else (.error (.requestFailure "Failed to insert Pathway"), ⟨db2, rng'⟩)

/-- Embeds `_insert_entity(db, Professor, name, email=..., pathway_id=...)`
(`queries.py:38-56`). -/
def insertEntityProfessor (st : St) (name email pathway_id : String) : Except PyErr ProfessorRow × St :=
  let (rnd, rng') := nextRnd st.rng
  let id_value := generate_id name rnd
  let entity : ProfessorRow := ⟨id_value, name, email, pathway_id⟩
  let db1 : DB := ⟨st.db.committed, { st.db.pending with professors := st.db.pending.professors ++ [entity] }⟩
  match commitDB db1 with
  | .ok db2 => (.ok entity, ⟨db2, rng'⟩)
  | .error e =>
    let db2 := rollbackDB db1
    if isSQLAlchemyError e then (.error (.databaseError "Error inserting Professor"), ⟨db2, rng'⟩)
    else (.error (.requestFailure "Failed to insert Professor"), ⟨db2, rng'⟩)

/-- Embeds `_insert_entity(db, Topic, name)` (`queries.py:38-56`). -/
def insertEntityTopic (st : St) (name : String) : Except PyErr TopicRow × St :=
  let (rnd, rng') := nextRnd st.rng
  let id_value := generate_id name rnd
  let entity : TopicRow := ⟨id_value, name⟩
  let db1 : DB := ⟨st.db.committed, { st.db.pending with topics := st.db.pending.topics ++ [entity] }⟩
  match commitDB db1 with
  | .ok db2 => (.ok entity, ⟨db2, rng'⟩)
  | .error e =>
    let db2 := rollbackDB db1
    if isSQLAlchemyError e then (.error (.databaseError "Error inserting Topic"), ⟨db2, rng'⟩)
    else (.error (.requestFailure "Failed to insert Topic"), ⟨db2, rng'⟩)

/-- Embeds `get_or_create_entity(db, Pathway, name)` (`queries.py:28-35`):
only an `EntityNotFoundError` escaping `_fetch_entity` triggers the create
branch; every other error propagates.  (`_fetch_entity` wraps its own
`EntityNotFoundError` into `RequestFailure`, so the create branch is
unreachable — this is the source's behaviour, reproduced faithfully.) -/
def getOrCreatePathway (st : St) (name : String) : Except PyErr PathwayRow × St :=
  match fetchPathway st.db name with
  | .ok e => (.ok e, st)
  | .error e =>
    if isEntityNotFound e then insertEntityPathway st name
    else (.error e, st)

/-- Embeds `get_or_create_entity(db, Professor, name=..., email=...,
pathway_id=...)` (`queries.py:28-35`). -/
def getOrCreateProfessor (st : St) (name email pathway_id : String) : Except PyErr ProfessorRow × St :=
  match fetchProfessor st.db name with
  | .ok e => (.ok e, st)
  | .error e =>
    if isEntityNotFound e then insertEntityProfessor st name email pathway_id
    else (.error e, st)

/-- Embeds `get_or_create_entity(db, Topic, name)` (`queries.py:28-35`). -/
def getOrCreateTopic (st : St) (name : String) : Except PyErr TopicRow × St :=
  match fetchTopic st.db name with
  | .ok e => (.ok e, st)
  | .error e =>
    if isEntityNotFound e then insertEntityTopic st name
    else (.error e, st)

/-- Mapped attributes of the declarative model `Course` (`schema.py:50-65`):
the five columns plus the `professor`, `topic`, `sessions` relationships.
`pathway_id` is not among them. -/
def courseMappedAttrs : List String :=
  ["id", "title", "description", "professor_id", "topic_id", "professor", "topic", "sessions"]

/-- Value of keyword `k` in a kwargs list. -/
def getKw (kwargs : List (String × String)) (k : String) : String :=
  ((kwargs.find? (fun kv => kv.1 = k)).map (fun kv => kv.2)).getD ""

/-- Embeds the declarative constructor call `Course(**kwargs)`
(`queries.py:200-207`): SQLAlchemy's default `__init__` raises `TypeError`
for any keyword that is not a mapped attribute of `Course`. -/
def makeCourse (kwargs : List (String × String)) : Except PyErr CourseRow :=
  if kwargs.all (fun kv => courseMappedAttrs.contains kv.1) then
    .ok ⟨getKw kwargs "id", getKw kwargs "title", getKw kwargs "description",
         getKw kwargs "professor_id", getKw kwargs "topic_id"⟩
  else
    .error (.typeError "invalid keyword argument for Course")

/-- Session row built from a payload (`queries.py:213-220` and
`queries.py:268-275`; all keywords are mapped attributes of `Session`). -/
def mkSessionRow (course_id : String) (s : SessionPayload) : SessionRow :=
  ⟨session_key course_id s.session_number, course_id, s.session_number, s.title, s.description⟩

/-- Media rows built from a session payload (`queries.py:223-231` and
`queries.py:278-286`; `session=session` sets the relationship, i.e. the
row's `session_id`). -/
def mkMediaRows (course_id : String) (s : SessionPayload) : List MediaRow :=
  s.media.map (fun m =>
    ⟨media_key (session_key course_id s.session_number) m.type,
     session_key course_id s.session_number, m.type, m.url⟩)

/-- Embeds `db.add_all(session_objects + media_objects)` preceded by
`db.add(course)` where applicable: append the rows to the pending state. -/
def addCourseRows (db : DB) (cs : List CourseRow) (ss : List SessionRow) (ms : List MediaRow) : DB :=
  ⟨db.committed,
   { db.pending with
     courses := db.pending.courses ++ cs,
     sessions := db.pending.sessions ++ ss,
     media := db.pending.media ++ ms }⟩

/-- Body of the `try` block of `insert_course` (`queries.py:174-236`),
step by step in source order. -/
def insertCourseBody (st : St) (request : CourseRequest) : Except PyErr String × St :=
  match getOrCreatePathway st (pyNorm request.pathway_name) with
  | (.error e, st1) => (.error e, st1)
  | (.ok pathway, st1) =>
    match getOrCreateProfessor st1 (professorWriteName request.professor_name)
        request.professor_email pathway.id with
    | (.error e, st2) => (.error e, st2)
    | (.ok professor, st2) =>
      match getOrCreateTopic st2 (pyNorm request.topic_name) with
      | (.error e, st3) => (.error e, st3)
      | (.ok topic, st3) =>
        let course_id := course_key pathway.id professor.id topic.id
        match (viewTables st3.db).courses.find? (fun c => c.id = course_id) with
        | some existing_course => (.error (.courseAlreadyExists existing_course.id), st3)
        | none =>
          match makeCourse [("id", course_id), ("title", request.course_title),
              ("description", request.course_description), ("professor_id", professor.id),
              ("topic_id", topic.id), ("pathway_id", pathway.id)] with
          | .error e => (.error e, st3)
          | .ok course =>
            let session_objects := request.sessions.map (mkSessionRow course_id)
            let media_objects := (request.sessions.map (mkMediaRows course_id)).flatten
            let db1 := addCourseRows st3.db [course] session_objects media_objects
            match commitDB db1 with
            | .error e => (.error e, ⟨db1, st3.rng⟩)
            | .ok db2 => (.ok course_id, ⟨db2, st3.rng⟩)

/-- Embeds `insert_course` (`queries.py:172-240`): on success returns the
course id of the response payload; any exception from the body is rolled
back and re-raised as `RequestFailure(f"Failed to Insert Course {title}")`. -/
def insertCourse (st : St) (request : CourseRequest) : Except PyErr String × St :=
  match insertCourseBody st request with
  | (.ok course_id, st1) => (.ok course_id, st1)
  | (.error _, st1) =>
    (.error (.requestFailure ("Failed to Insert Course " ++ request.course_title)),
     ⟨rollbackDB st1.db, st1.rng⟩)

/-- Body of the `try` block of `insert_session` (`queries.py:245-294`).  The
third component records whether the local variable `course_id` has been bound
by the time the body left the `try` block (it is read again by the `except`
handler). -/
def insertSessionBody (st : St) (request : SessionRequest) :
    Except PyErr String × St × Option String :=
  match getattrSessionRequest request "pathway_name" with
  | .error e => (.error e, st, none)
  | .ok pathway_name =>
    match fetchPathway st.db (pyNorm pathway_name) with
    | .error e => (.error e, st, none)
    | .ok pathway =>
      match fetchProfessor st.db (professorReadName request.professor_name) with
      | .error e => (.error e, st, none)
      | .ok professor =>
        match fetchTopic st.db (pyNorm request.topic_name) with
        | .error e => (.error e, st, none)
        | .ok topic =>
          let course_id := session_course_key pathway.id professor.id topic.id
          match (viewTables st.db).courses.find? (fun c => c.id = course_id) with
          | none => (.error (.courseNotFound ("Course " ++ course_id ++ " not found.")), st, some course_id)
          | some _ =>
            let session_objects := request.sessions.map (mkSessionRow course_id)
            let media_objects := (request.sessions.map (mkMediaRows course_id)).flatten
            let db1 := addCourseRows st.db [] session_objects media_objects
            match commitDB db1 with
            | .error e => (.error e, ⟨db1, st.rng⟩, some course_id)
            | .ok db2 => (.ok course_id, ⟨db2, st.rng⟩, some course_id)

/-- Embeds `insert_session` (`queries.py:243-298`): on any exception the
handler rolls back and evaluates `f"Failed to add sessions and media to
{course_id}"` — when the local `course_id` was never bound on the failing
path, that very f-string raises `NameError`, which is what the caller
observes instead of the `RequestFailure`. -/
def insertSession (st : St) (request : SessionRequest) : Except PyErr String × St :=
  match insertSessionBody st request with
  | (.ok course_id, st1, _) => (.ok course_id, st1)
  | (.error _, st1, boundCourseId) =>
    let st2 : St := ⟨rollbackDB st1.db, st1.rng⟩
    match boundCourseId with
    | some cid => (.error (.requestFailure ("Failed to add sessions and media to " ++ cid)), st2)
    | none => (.error (.nameError "course_id"), st2)

/-- Professor summary nested inside a streamed course record
(`queries.py:123`). -/
structure ProfessorSummary where
  id : String
  name : String
deriving DecidableEq

/-- Media entry of a streamed session (`queries.py:130`). -/
structure MediaOut where
  type : String
  url : String
deriving DecidableEq

/-- Session entry of a streamed course record (`queries.py:126-135`). -/
structure SessionOut where
  session_number : Int
  title : String
  description : String
  media : List MediaOut
deriving DecidableEq

/-- Data of one streamed `CourseResponse` line (`queries.py:119-138`);
`model_dump_json` serialisation is abstracted to the structured record. -/
structure CourseResponseData where
  id : String
  title : String
  description : String
  professor : ProfessorSummary
  sessions : List SessionOut
deriving DecidableEq

/-- One yielded element of a streaming generator: either a serialised course
record or a serialised `ErrorResponse(error=str(e))` line. -/
inductive StreamItem where
  | courseRecord (r : CourseResponseData)
  | errorRecord (error : String)
deriving DecidableEq

/-- Embeds `course_to_response` (`queries.py:116-138`): join the course with
its professor and its sessions with their media (the `joinedload`ed
relationships, resolved against the session's view of the tables). -/
def courseToResponse (db : DB) (c : CourseRow) : CourseResponseData :=
  let prof := ((viewTables db).professors.find? (fun p => p.id = c.professor_id)).getD ⟨"", "", "", ""⟩
  let sess := (viewTables db).sessions.filter (fun s => s.course_id = c.id)
  { id := c.id
    title := c.title
    description := c.description
    professor := ⟨prof.id, prof.name⟩
    sessions := sess.map (fun s =>
      { session_number := s.session_number
        title := s.title
        description := s.description
        media := ((viewTables db).media.filter (fun m => m.session_id = s.id)).map
          (fun m => ⟨m.type, m.url⟩) }) }

/-- Column access `getattr(Course, f"{filter_by}_id")` (`queries.py:101`):
`Course` maps `professor_id` and `topic_id`; any other name raises
`AttributeError`. -/
def courseFilterColumn (filter_by : String) : Except PyErr (CourseRow → String) :=
  if filter_by = "professor" then .ok (fun c => c.professor_id)
  else if filter_by = "topic" then .ok (fun c => c.topic_id)
  else .error (.attributeError "Course" (filter_by ++ "_id"))

/-- Body of the `try` block of `stream_courses_by_filter`
(`queries.py:89-107`): pick `Professor` when `filter_by == "professor"`,
otherwise `Topic`; fetch the entity by the space-stripped value; select the
courses whose `{filter_by}_id` column equals the entity id; yield one record
per course. -/
def streamBody (db : DB) (filter_by value : String) : Except PyErr (List StreamItem) :=
  match (if filter_by = "professor"
         then (fetchProfessor db (pyNorm value)).map (fun p => p.id)
         else (fetchTopic db (pyNorm value)).map (fun t => t.id)) with
  | .error e => .error e
  | .ok entity_id =>
    match courseFilterColumn filter_by with
    | .error e => .error e
    | .ok col =>
      let courses := (viewTables db).courses.filter (fun c => col c = entity_id)
      .ok (courses.map (fun c => .courseRecord (courseToResponse db c)))

/-- Embeds the generator `stream_courses_by_filter` (`queries.py:85-113`) as
the list of items it yields to its consumer: any exception raised inside the
body is caught (`except ValueError` / `except Exception`) and becomes one
in-band `ErrorResponse` line, after which the generator is exhausted. -/
def stream_courses_by_filter (db : DB) (filter_by value : String) : List StreamItem :=
  match streamBody db filter_by value with
  | .ok items => items
  | .error e => [.errorRecord (pyStr e)]

/-- Removing spaces twice is the same as removing them once, at the
character-list level. -/
theorem filter_nonspace_idem (l : List Char) :
    (l.filter (fun c => c != ' ')).filter (fun c => c != ' ')
      = l.filter (fun c => c != ' ') := by
  induction l with
  | nil => rfl
  | cons c t ih =>
    by_cases h : (c != ' ') = true
    · simp only [List.filter_cons, if_pos h, ih]
    · simp only [List.filter_cons, if_neg h, ih]

/-- C10: the space-removal normalization applied to natural-key names before
lookup and storage is idempotent: normalizing an already normalized name
changes nothing. -/
theorem normalize_idempotent (n : String) : pyNorm (pyNorm n) = pyNorm n := by
  show (⟨(n.data.filter (fun c => c != ' ')).filter (fun c => c != ' ')⟩ : String)
      = ⟨n.data.filter (fun c => c != ' ')⟩
  rw [filter_nonspace_idem]

/-- C1: the composite course key the Session Writer derives
(`f"{pathway.id}--{professor.id}-{topic.id}"`) never equals the key the
Course Writer stores (`f"{pathway.id}-{professor.id}-{topic.id}"`), for any
ancestor ids whatsoever — the Session Writer inserts an extra dash, so its
lookup key is always one character longer. -/
theorem course_key_mismatch_between_writers (p pr t : String) :
    session_course_key p pr t ≠ course_key p pr t := by
  intro h
  have hl := congrArg String.length h
  have h2 : ("--" : String).length = 2 := rfl
  have h1 : ("-" : String).length = 1 := rfl
  simp only [session_course_key, course_key, String.length_append, h1, h2] at hl
  omega

/-- C4 counterexample: the professor-name normalization `insert_course` uses
to store (`replace(" ", "").lower()`) differs from the one `insert_session`
and `stream_courses_by_filter` use to look up (`replace(" ", "")` only), on
the concrete name `"Ada"`: the stored name is `"ada"`, the lookup key is
`"Ada"`, and the two normalizations disagree. -/
theorem professor_norm_counterexample :
    professorWriteName "Ada" = "ada"
    ∧ professorReadName "Ada" = "Ada"
    ∧ decide (professorWriteName "Ada" = professorReadName "Ada") = false := by
  decide

/-- Witness for the C1 theorem at concrete ancestor ids. -/
theorem course_key_mismatch_between_writers_witness :
    decide (session_course_key "M1" "J2" "A3" = course_key "M1" "J2" "A3") = false :=
  decide_eq_false (course_key_mismatch_between_writers "M1" "J2" "A3")

/-- C4 (amended): pathway and topic names use the same normalization
(`pyNorm`) on every path; the professor-name normalization of the write path
agrees with that of the read paths exactly when lowercasing fixes every
character of the name (in particular for names already lowercase). -/
theorem professor_norm_agreement (n : String)
    (h : ∀ c ∈ n.data, Char.toLower c = c) :
    professorWriteName n = professorReadName n := by
  have h2 : (n.data.filter (fun c => c != ' ')).map Char.toLower
      = (n.data.filter (fun c => c != ' ')).map id :=
    List.map_congr_left (fun c hc => h c (List.mem_of_mem_filter hc))
  show (⟨(n.data.filter (fun c => c != ' ')).map Char.toLower⟩ : String)
      = ⟨n.data.filter (fun c => c != ' ')⟩
  rw [h2, List.map_id]

/-- Witness for the amended C4 theorem at the concrete name `"ada"`. -/
theorem professor_norm_agreement_witness :
    professorWriteName "ada" = professorReadName "ada" :=
  professor_norm_agreement "ada" (by decide)

/-- C5: for every state and every `SessionRequest`, `insert_session` fails
before any lookup or write: the body stops at once with `AttributeError`
(the model has no `pathway_name` field), the local `course_id` is never
bound, and the `except` handler's f-string therefore raises `NameError` —
so the surfaced error is never the declared `RequestFailure`, and the
committed storage is untouched. -/
theorem insert_session_attribute_and_name_error (st : St) (req : SessionRequest) :
    insertSessionBody st req
      = (.error (.attributeError "SessionRequest" "pathway_name"), st, none)
    ∧ insertSession st req = (.error (.nameError "course_id"), ⟨rollbackDB st.db, st.rng⟩)
    ∧ (insertSession st req).2.db.committed = st.db.committed
    ∧ ∀ m, (insertSession st req).1 ≠ .error (.requestFailure m) := by
  refine ⟨rfl, rfl, rfl, fun m h => ?_⟩
  exact PyErr.noConfusion (Except.error.inj h)

/-- C6: evaluation of `insert_session` at a concrete request whose resolved
ancestors match no Course (the storage is empty): the call does fail and
inserts no Session or Media row, but the surfaced error is `NameError`
(after the `AttributeError` on the missing `pathway_name` field), not the
`CourseNotFoundError` the claim requires. -/
theorem insert_session_missing_course_behavior :
    insertSession ⟨emptyDB, []⟩ ⟨"alice", "algebra", []⟩
      = (.error (.nameError "course_id"), ⟨emptyDB, []⟩)
    ∧ (insertSession ⟨emptyDB, []⟩ ⟨"alice", "algebra", []⟩).2.db.committed.sessions = []
    ∧ (insertSession ⟨emptyDB, []⟩ ⟨"alice", "algebra", []⟩).2.db.committed.media = []
    ∧ ∀ cid, (insertSession ⟨emptyDB, []⟩ ⟨"alice", "algebra", []⟩).1
        ≠ .error (.courseNotFound cid) := by
  refine ⟨by decide, by decide, by decide, fun cid h => ?_⟩
  exact PyErr.noConfusion (Except.error.inj h)

/-- The spec's own duplicate-course example request
(pathway `"MATH"`, professor email `"a@x.com"`, topic `"Algebra"`). -/
def mathAlgebraRequest : CourseRequest :=
  ⟨"Alice", "a@x.com", "MATH", "Algebra", "Algebra 101", "Desc", []⟩

/-- Storage already holding the resolved parents of `mathAlgebraRequest`
(as if they existed before the call). -/
def seededParentTables : Tables :=
  ⟨[⟨"M1", "MATH"⟩], [⟨"A2", "alice", "a@x.com", "M1"⟩], [⟨"T3", "Algebra"⟩], [], [], []⟩

/-- C3: evaluation of `insert_course` on the spec's example triple: the FIRST
call already fails with `RequestFailure` (never with success, and never
surfacing `CourseAlreadyExistsError`): on empty storage the resolver fails
(`_fetch_entity` converts its own `EntityNotFoundError` into
`RequestFailure`, which `get_or_create_entity` does not catch), and even
with all three parents pre-seeded the `Course(...)` constructor raises
`TypeError` because the `Course` model maps no `pathway_id` attribute.  In
both runs no Course row is written. -/
theorem insert_course_first_call_fails :
    (insertCourse ⟨emptyDB, ["1111", "2222", "3333"]⟩ mathAlgebraRequest).1
        = .error (.requestFailure "Failed to Insert Course Algebra 101")
    ∧ (insertCourse ⟨emptyDB, ["1111", "2222", "3333"]⟩ mathAlgebraRequest).2
        = ⟨emptyDB, ["1111", "2222", "3333"]⟩
    ∧ (insertCourse ⟨⟨seededParentTables, emptyTables⟩, ["1111"]⟩ mathAlgebraRequest).1
        = .error (.requestFailure "Failed to Insert Course Algebra 101")
    ∧ (insertCourse ⟨⟨seededParentTables, emptyTables⟩, ["1111"]⟩ mathAlgebraRequest).2.db.committed.courses
        = [] := by
  exact ⟨by decide, by decide, by decide, by decide⟩

/-- C2: the transaction boundary does NOT enclose the whole operation.
Whenever `_insert_entity` succeeds for a parent entity, it has already
committed that row on its own (`queries.py:46`), so a later rollback — the
one `insert_course`'s `except` branch performs — leaves the row in place.
Moreover `insert_course` can never even reach the create branch: on empty
storage every call fails with `RequestFailure` (the resolver's
`EntityNotFoundError` is swallowed by `_fetch_entity`'s own `except
Exception`) and writes nothing at all. -/
theorem insert_course_parent_rows_survive
    (st st' : St) (name : String) (e : PathwayRow)
    (h : insertEntityPathway st name = (.ok e, st')) :
    e ∈ (rollbackDB st'.db).committed.pathways
    ∧ ∀ (req : CourseRequest) (rng : List String),
        (insertCourse ⟨emptyDB, rng⟩ req).1
          = .error (.requestFailure ("Failed to Insert Course " ++ req.course_title))
        ∧ (insertCourse ⟨emptyDB, rng⟩ req).2.db = emptyDB := by
  constructor
  · simp only [insertEntityPathway, nextRnd] at h
    set db1 : DB :=
      ⟨st.db.committed,
       { st.db.pending with
         pathways := st.db.pending.pathways
           ++ [⟨generate_id name (st.rng.headD "0000"), name⟩] }⟩ with hdb1
    rcases hc : commitDB db1 with err | db2
    · rw [hc] at h
      by_cases hs : isSQLAlchemyError err = true <;> simp [hs] at h
    · rw [hc] at h
      simp only [Prod.mk.injEq] at h
      obtain ⟨he, hst⟩ := h
      have he2 := Except.ok.inj he
      unfold commitDB at hc
      by_cases hok : constraintsOK (mergeTables db1.committed db1.pending) = true
      · rw [if_pos hok] at hc
        have hdb2 := Except.ok.inj hc
        subst he2
        rw [← hst]
        simp only [rollbackDB, ← hdb2, mergeTables, hdb1]
        simp [List.mem_append]
      · rw [if_neg hok] at hc
        exact absurd hc (by simp)
  · intro req rng
    exact ⟨rfl, rfl⟩

/-- Witness for the C2 theorem: a concrete successful `_insert_entity` call
whose committed pathway row survives a subsequent rollback. -/
theorem insert_course_parent_rows_survive_witness :
    insertEntityPathway ⟨emptyDB, ["1234"]⟩ "MATH"
      = (.ok ⟨"M1234", "MATH"⟩,
         ⟨⟨⟨[⟨"M1234", "MATH"⟩], [], [], [], [], []⟩, emptyTables⟩, []⟩)
    ∧ (⟨"M1234", "MATH"⟩ : PathwayRow)
        ∈ (rollbackDB (⟨⟨[⟨"M1234", "MATH"⟩], [], [], [], [], []⟩, emptyTables⟩ : DB)).committed.pathways := by
  have h : insertEntityPathway ⟨emptyDB, ["1234"]⟩ "MATH"
      = (.ok ⟨"M1234", "MATH"⟩,
         ⟨⟨⟨[⟨"M1234", "MATH"⟩], [], [], [], [], []⟩, emptyTables⟩, []⟩) := by decide
  exact ⟨h, (insert_course_parent_rows_survive _ _ _ _ h).1⟩

/-- C7: when the filter value resolves to no Professor (resp. Topic) entity,
the stream consists of exactly one in-band error record, however many
courses storage holds (the conclusion does not depend on the courses table);
and for every input whatsoever the generator yields either the joined
records or a single error record — an exception in the body never escapes
to the consumer. -/
theorem stream_filter_inband_errors (db : DB) (v : String) :
    ((viewTables db).professors.find? (fun r => r.name = pyNorm v) = none →
      stream_courses_by_filter db "professor" v = [.errorRecord "Failed to fetch Professor"])
    ∧ ((viewTables db).topics.find? (fun r => r.name = pyNorm v) = none →
      stream_courses_by_filter db "topic" v = [.errorRecord "Failed to fetch Topic"])
    ∧ ∀ filter_by,
        (∃ e, streamBody db filter_by v = .error e
            ∧ stream_courses_by_filter db filter_by v = [.errorRecord (pyStr e)])
        ∨ (∃ items, streamBody db filter_by v = .ok items
            ∧ stream_courses_by_filter db filter_by v = items) := by
  refine ⟨fun h => ?_, fun h => ?_, fun filter_by => ?_⟩
  · simp [stream_courses_by_filter, streamBody, fetchProfessor, fetchProfessorFirst,
      fetchWrap, h, isSQLAlchemyError, pyStr, Except.map]
  · simp [stream_courses_by_filter, streamBody, fetchTopic, fetchTopicFirst,
      fetchWrap, h, isSQLAlchemyError, pyStr, Except.map]
  · rcases hb : streamBody db filter_by v with e | items
    · exact Or.inl ⟨e, rfl, by simp [stream_courses_by_filter, hb]⟩
    · exact Or.inr ⟨items, rfl, by simp [stream_courses_by_filter, hb]⟩

/-- Witness for the C7 theorem: an empty store and the professor name
`"bob"`, which resolves to no Professor. -/
theorem stream_filter_inband_errors_witness :
    stream_courses_by_filter emptyDB "professor" "bob"
      = [.errorRecord "Failed to fetch Professor"] :=
  (stream_filter_inband_errors emptyDB "bob").1 (by decide)

/-- Dropping a leading run of `q`-characters preserves the existence of a
`p`-character when no `p`-character satisfies `q`. -/
theorem any_dropWhile (p q : Char → Bool) (hpq : ∀ c, p c = true → q c = false) :
    ∀ l : List Char, l.any p = true → (l.dropWhile q).any p = true := by
  intro l
  induction l with
  | nil => intro h; simp at h
  | cons c t ih =>
    intro h
    rw [List.dropWhile_cons]
    by_cases hq : q c = true
    · rw [if_pos hq]
      apply ih
      rw [List.any_cons] at h
      cases hpc : p c
      · rw [hpc] at h; simpa using h
      · have hf := hpq c hpc
        rw [hf] at hq
        exact absurd hq (by simp)
    · rw [if_neg hq]
      exact h

/-- Word characters are not whitespace, so `strip` cannot remove them. -/
theorem word_not_whitespace (c : Char) (h : isWordChar c = true) :
    c.isWhitespace = false := by
  cases hw : c.isWhitespace
  · rfl
  · simp only [Char.isWhitespace, Bool.or_eq_true, decide_eq_true_eq] at hw
    rcases hw with ((h1 | h1) | h1) | h1 <;> subst h1 <;> exact absurd h (by decide)

/-- Stripping surrounding whitespace preserves the existence of a word
character. -/
theorem any_pyStrip (l : List Char) (h : l.any isWordChar = true) :
    (pyStrip l).any isWordChar = true := by
  unfold pyStrip
  rw [List.any_reverse]
  apply any_dropWhile _ _ word_not_whitespace
  rw [List.any_reverse]
  exact any_dropWhile _ _ word_not_whitespace l h

/-- As long as the remaining input has a word character or the accumulator is
non-empty, the split produces at least one run with a head. -/
theorem runsAux_heads_ne_nil :
    ∀ (l acc : List Char), (l.any isWordChar = true ∨ acc ≠ []) →
      (runsAux l acc).filterMap List.head? ≠ [] := by
  intro l
  induction l with
  | nil =>
    intro acc h
    rcases h with h | h
    · simp at h
    · simp only [runsAux]
      rw [if_neg (by simpa [List.isEmpty_iff] using h)]
      cases hrev : acc.reverse with
      | nil => exact absurd (List.reverse_eq_nil_iff.mp hrev) h
      | cons x xs => simp [hrev]
  | cons c t ih =>
    intro acc h
    simp only [runsAux]
    by_cases hw : isWordChar c = true
    · rw [if_pos hw]
      apply ih
      right
      simp
    · rw [if_neg hw]
      by_cases ha : acc.isEmpty = true
      · rw [if_pos ha]
        apply ih
        left
        rcases h with h | h
        · rw [List.any_cons] at h
          cases hw2 : isWordChar c
          · rw [hw2] at h; simpa using h
          · exact absurd hw2 hw
        · exact absurd (List.isEmpty_iff.mp ha) h
      · rw [if_neg ha]
        have hacc : acc ≠ [] := fun hh => ha (by simp [hh])
        cases hrev : acc.reverse with
        | nil => exact absurd (List.reverse_eq_nil_iff.mp hrev) hacc
        | cons x xs => simp [List.filterMap_cons, hrev]

/-- A name containing at least one word character has a non-empty initials
string. -/
theorem initialsStr_ne_empty (name : String) (h : name.data.any isWordChar = true) :
    initialsStr name ≠ "" := by
  intro hs
  have hd : initialsList (pyStrip name.data) = [] := congrArg String.data hs
  unfold initialsList wordRuns at hd
  rw [List.map_eq_nil_iff] at hd
  exact runsAux_heads_ne_nil _ _ (Or.inl (any_pyStrip _ h)) hd

/-- C8: `generate_id` is deterministic in format.  For a name with at least
one word character and a random suffix of 4 decimal digits, the result is
the initials string followed by the suffix; the initials part is non-empty
and depends only on the name (two calls agree on it); the suffix part is
exactly the 4 random decimal digits; and the whole result is non-empty. -/
theorem generate_id_format (name r1 r2 : String)
    (hw : name.data.any isWordChar = true)
    (hr : r1.data.length = 4 ∧ r1.data.all Char.isDigit = true) :
    generate_id name r1 = initialsStr name ++ r1
    ∧ initialsStr name ≠ ""
    ∧ generate_id name r1 ≠ ""
    ∧ (generate_id name r1).data.take (initialsStr name).data.length
        = (generate_id name r2).data.take (initialsStr name).data.length
    ∧ (generate_id name r1).data.drop (initialsStr name).data.length = r1.data
    ∧ ((generate_id name r1).data.drop (initialsStr name).data.length).length = 4
    ∧ ((generate_id name r1).data.drop (initialsStr name).data.length).all Char.isDigit
        = true := by
  have hdata : ∀ r : String, (generate_id name r).data = (initialsStr name).data ++ r.data :=
    fun r => String.data_append _ _
  have hne := initialsStr_ne_empty name hw
  have hdrop : (generate_id name r1).data.drop (initialsStr name).data.length = r1.data := by
    rw [hdata]
    exact List.drop_left _ _
  refine ⟨rfl, hne, ?_, ?_, hdrop, ?_, ?_⟩
  · intro hemp
    have hnil : (initialsStr name).data ++ r1.data = [] := by
      rw [← hdata, hemp]
    exact hne (String.ext (List.append_eq_nil.mp hnil).1)
  · rw [hdata, hdata, List.take_left, List.take_left]
  · rw [hdrop]
    exact hr.1
  · rw [hdrop]
    exact hr.2

/-- Witness for the C8 theorem at the name `"John Doe"` and suffix
`"1234"`. -/
theorem generate_id_format_witness :
    generate_id "John Doe" "1234" = initialsStr "John Doe" ++ "1234"
    ∧ initialsStr "John Doe" ≠ "" :=
  ⟨(generate_id_format "John Doe" "1234" "5678" (by decide) ⟨by decide, by decide⟩).1,
   (generate_id_format "John Doe" "1234" "5678" (by decide) ⟨by decide, by decide⟩).2.1⟩

/-- Packing a valid codepoint into a `Char` and reading it back is the
identity. -/
theorem toNat_ofNat_valid (m : Nat) (h : m < 55296) : (Char.ofNat m).toNat = m := by
  have hv : m.isValidChar := Or.inl h
  simp [Char.ofNat, hv]
  rfl

/-- Upper-casing a word character never yields the dash separator. -/
theorem toUpper_word_ne_dash (c : Char) (h : isWordChar c = true) :
    Char.toUpper c ≠ '-' := by
  intro heq
  simp only [Char.toUpper] at heq
  by_cases hb : Char.toNat c ≥ 97 ∧ Char.toNat c ≤ 122
  · rw [if_pos hb] at heq
    have h45 : (Char.ofNat (Char.toNat c - 32)).toNat = Char.toNat '-' :=
      congrArg Char.toNat heq
    rw [toNat_ofNat_valid (Char.toNat c - 32) (by omega)] at h45
    have hd : Char.toNat '-' = 45 := by decide
    omega
  · rw [if_neg hb] at heq
    subst heq
    exact absurd h (by decide)

/-- Every character inside any run produced by the splitter is a word
character (provided the accumulator holds only word characters). -/
theorem runsAux_word :
    ∀ (l acc : List Char), (∀ x ∈ acc, isWordChar x = true) →
      ∀ r ∈ runsAux l acc, ∀ c ∈ r, isWordChar c = true := by
  intro l
  induction l with
  | nil =>
    intro acc hacc r hr c hc
    simp only [runsAux] at hr
    by_cases ha : acc.isEmpty = true
    · rw [if_pos ha] at hr
      simp at hr
    · rw [if_neg ha] at hr
      simp at hr
      subst hr
      exact hacc c (List.mem_reverse.mp hc)
  | cons x t ih =>
    intro acc hacc r hr c hc
    simp only [runsAux] at hr
    by_cases hw : isWordChar x = true
    · rw [if_pos hw] at hr
      refine ih (x :: acc) ?_ r hr c hc
      intro y hy
      rcases List.mem_cons.mp hy with h1 | h1
      · subst h1; exact hw
      · exact hacc y h1
    · rw [if_neg hw] at hr
      by_cases ha : acc.isEmpty = true
      · rw [if_pos ha] at hr
        exact ih [] (by simp) r hr c hc
      · rw [if_neg ha] at hr
        rcases List.mem_cons.mp hr with h1 | h1
        · subst h1
          exact hacc c (List.mem_reverse.mp hc)
        · exact ih [] (by simp) r h1 c hc

/-- No character of an initials string is the dash separator. -/
theorem initialsList_no_dash (l : List Char) : ∀ c ∈ initialsList l, c ≠ '-' := by
  intro c hc
  unfold initialsList wordRuns at hc
  rw [List.mem_map] at hc
  obtain ⟨d, hd, hdc⟩ := hc
  rw [List.mem_filterMap] at hd
  obtain ⟨r, hr, hhead⟩ := hd
  have hdr : d ∈ r := by
    rcases List.head?_eq_some_iff.mp hhead with ⟨ys, rfl⟩
    exact List.mem_cons_self _ _
  have hword := runsAux_word l [] (by simp) r hr d hdr
  rw [← hdc]
  exact toUpper_word_ne_dash d hword

/-- Decimal digits are not the dash separator. -/
theorem digit_ne_dash (c : Char) (h : c.isDigit = true) : c ≠ '-' := by
  intro he
  subst he
  exact absurd h (by decide)

/-- A generated identifier (initials plus all-digit suffix) never contains
the dash separator — the Identifier Generator's alphabet excludes it. -/
theorem generate_id_no_dash (n r : String) (hr : r.data.all Char.isDigit = true) :
    ∀ c ∈ (generate_id n r).data, c ≠ '-' := by
  intro c hc
  have hc2 : c ∈ (initialsStr n).data ++ r.data := by
    rw [← String.data_append]
    exact hc
  rcases List.mem_append.mp hc2 with h1 | h1
  · exact initialsList_no_dash _ c h1
  · exact digit_ne_dash c (List.all_eq_true.mp hr c h1)

/-- Splitting at a separator absent from both left parts is injective. -/
theorem append_dash_inj :
    ∀ (a b u v : List Char),
      (∀ c ∈ a, c ≠ '-') → (∀ c ∈ b, c ≠ '-') →
      a ++ '-' :: u = b ++ '-' :: v → a = b ∧ u = v := by
  intro a
  induction a with
  | nil =>
    intro b u v _ hb h
    cases b with
    | nil =>
      simp only [List.nil_append] at h
      exact ⟨rfl, List.cons.inj h |>.2⟩
    | cons y b2 =>
      rw [List.nil_append, List.cons_append] at h
      have h1 := (List.cons.inj h).1
      exact absurd h1.symm (hb y (List.mem_cons_self _ _))
  | cons x a2 ih =>
    intro b u v ha hb h
    cases b with
    | nil =>
      rw [List.nil_append, List.cons_append] at h
      have h1 := (List.cons.inj h).1
      exact absurd h1 (ha x (List.mem_cons_self _ _))
    | cons y b2 =>
      rw [List.cons_append, List.cons_append] at h
      have h1 := (List.cons.inj h).1
      have h2 := (List.cons.inj h).2
      obtain ⟨hab, huv⟩ := ih b2 u v (fun c hc => ha c (List.mem_cons_of_mem _ hc))
        (fun c hc => hb c (List.mem_cons_of_mem _ hc)) h2
      exact ⟨by rw [h1, hab], huv⟩

/-- Characters of a Course Writer key, exposing the two separator
positions. -/
theorem course_key_data (a b c : String) :
    (course_key a b c).data = a.data ++ '-' :: (b.data ++ '-' :: c.data) := by
  have hdash : ("-" : String).data = ['-'] := rfl
  simp [course_key, String.data_append, hdash]

/-- C9: the Course Writer's key derivation is injective over identifiers
drawn from the Identifier Generator: if two triples of `generate_id` results
(with all-digit random suffixes) produce equal course keys, the identifier
triples are equal, because no generated identifier contains the dash
separator. -/
theorem course_key_injective_on_generated_ids
    (n1 n2 n3 m1 m2 m3 r1 r2 r3 s1 s2 s3 : String)
    (hr1 : r1.data.all Char.isDigit = true) (hr2 : r2.data.all Char.isDigit = true)
    (_hr3 : r3.data.all Char.isDigit = true) (hs1 : s1.data.all Char.isDigit = true)
    (hs2 : s2.data.all Char.isDigit = true) (_hs3 : s3.data.all Char.isDigit = true)
    (heq : course_key (generate_id n1 r1) (generate_id n2 r2) (generate_id n3 r3)
        = course_key (generate_id m1 s1) (generate_id m2 s2) (generate_id m3 s3)) :
    generate_id n1 r1 = generate_id m1 s1
    ∧ generate_id n2 r2 = generate_id m2 s2
    ∧ generate_id n3 r3 = generate_id m3 s3 := by
  have hdata := congrArg String.data heq
  rw [course_key_data, course_key_data] at hdata
  obtain ⟨h1, h23⟩ := append_dash_inj _ _ _ _
    (generate_id_no_dash n1 r1 hr1) (generate_id_no_dash m1 s1 hs1) hdata
  obtain ⟨h2, h3⟩ := append_dash_inj _ _ _ _
    (generate_id_no_dash n2 r2 hr2) (generate_id_no_dash m2 s2 hs2) h23
  exact ⟨String.ext h1, String.ext h2, String.ext h3⟩

/-- Witness for the C9 theorem at concrete generated identifiers. -/
theorem course_key_injective_on_generated_ids_witness :
    generate_id "Math" "1111" = generate_id "Math" "1111"
    ∧ generate_id "Ada L" "2222" = generate_id "Ada L" "2222"
    ∧ generate_id "Algebra" "3333" = generate_id "Algebra" "3333" :=
  course_key_injective_on_generated_ids "Math" "Ada L" "Algebra" "Math" "Ada L" "Algebra"
    "1111" "2222" "3333" "1111" "2222" "3333"
    (by decide) (by decide) (by decide) (by decide) (by decide) (by decide) rfl
